import Mathlib

/-!
Verification of the widget client protocol engine of the matrix-rust-sdk
repository (crates/matrix-sdk/src/widget).  The Rust source is shallowly
embedded: pure functions become Lean functions, stateful code becomes
explicit state passing, the serde JSON wire format becomes an explicit
Json inductive, and external collaborators (transport, room client,
permission policy) become oracle parameters.

The repository snapshot contains two parallel implementations of the
client widget API that coexist mid-refactor: the state machine in
widget/client/mod.rs (ClientApi::process) and the handler based one in
widget/client/handler/state.rs together with widget/client/widget.rs
(WidgetProxy).  Both are embedded below, each under a namespace named
after its source file.

The files widget/filter.rs and widget/permissions.rs, the module
widget/client/handler/mod.rs and the from_widget message definitions are
referenced by the sources but their bodies are not available; those
parts are modelled from the specification text and are marked as such in
their doc comments.
-/

/-- Model of a serde_json::Value as used on the wire.  Objects keep their
fields as an ordered association list; numbers are modelled as integers,
which covers every numeric field of the protocol schema (limits, token
expiry seconds). -/
inductive Json where
  | null : Json
  | bool (b : Bool) : Json
  | num (n : Int) : Json
  | str (s : String) : Json
  | arr (elems : List Json) : Json
  | obj (fields : List (String × Json)) : Json
deriving Repr

/-- Looks a field up in a JSON object; yields none for non-objects and
missing fields, mirroring how serde reports a missing field. -/
def Json.getField : Json → String → Option Json
  | .obj fields, key => fields.lookup key
  | _, _ => none

/-- Extracts a string, mirroring serde deserialization of String. -/
def Json.asStr : Json → Option String
  | .str s => some s
  | _ => none

/-- Extracts a non-negative number, mirroring serde deserialization of an
unsigned integer such as u32 or usize. -/
def Json.asNat : Json → Option Nat
  | .num n => if 0 ≤ n then some n.toNat else none
  | _ => none

/-- Extracts a boolean, mirroring serde deserialization of bool. -/
def Json.asBool : Json → Option Bool
  | .bool b => some b
  | _ => none

/-- Modelled from the spec: the content shape inspected by event filters
(widget/filter.rs is not available).  Section 4.2 only ever inspects the
msgtype field of the content, so the deserialization helper carries an
optional msgtype.  The serde Default gives an empty content. -/
structure MatrixEventContent where
  msgtype : Option String
deriving DecidableEq, Repr

/-- Default (empty) content, mirroring MatrixEventContent::default(). -/
def MatrixEventContent.default : MatrixEventContent := { msgtype := none }

/-- Modelled from the spec: deserialization of a raw JSON content value
into MatrixEventContent (serde_json::from_value in the sources).  A
non-object value fails, an object with a non-string msgtype field fails,
any other object succeeds with its optional msgtype. -/
def MatrixEventContent.fromJson : Json → Option MatrixEventContent
  | .obj fields =>
    match fields.lookup "msgtype" with
    | none => some { msgtype := none }
    | some (.str s) => some { msgtype := some s }
    | some _ => none
  | _ => none

/-- The candidate that event filters match against: an event type, an
optional state key and the content shape.  Field layout follows the uses
of MatrixEventFilterInput in widget/client/mod.rs and
widget/client/incoming.rs; event types are modelled as strings. -/
structure MatrixEventFilterInput where
  event_type : String
  state_key : Option String
  content : MatrixEventContent
deriving DecidableEq, Repr

/-- Filters over message-like events, as enumerated by the bindings in
bindings/matrix-sdk-ffi/src/widget.rs and by spec section 4.2. -/
inductive MessageLikeEventFilter where
  | WithType (event_type : String) : MessageLikeEventFilter
  | RoomMessageWithMsgtype (msgtype : String) : MessageLikeEventFilter
deriving DecidableEq, Repr

/-- Filters over state events, as enumerated by the bindings and by spec
section 4.2. -/
inductive StateEventFilter where
  | WithType (event_type : String) : StateEventFilter
  | WithTypeAndStateKey (event_type : String) (state_key : String) : StateEventFilter
deriving DecidableEq, Repr

/-- The closed set of event filter variants (spec section 3). -/
inductive EventFilter where
  | MessageLike (filter : MessageLikeEventFilter) : EventFilter
  | State (filter : StateEventFilter) : EventFilter
deriving DecidableEq, Repr

/-- Modelled from the spec: the per-filter matching rules of section 4.2
(widget/filter.rs is not available).  MessageLikeWithType requires a
message-like candidate (no state key) with the given type;
RoomMessageWithMsgtype requires the generic room-message type and the
given content msgtype; StateWithType requires a state key and the given
type; StateWithTypeAndStateKey additionally pins the state key. -/
def EventFilter.matches : EventFilter → MatrixEventFilterInput → Bool
  | .MessageLike (.WithType t), input =>
    input.state_key.isNone && input.event_type == t
  | .MessageLike (.RoomMessageWithMsgtype m), input =>
    input.event_type == "m.room.message" && input.content.msgtype == some m
  | .State (.WithType t), input =>
    input.state_key.isSome && input.event_type == t
  | .State (.WithTypeAndStateKey t k), input =>
    input.state_key == some k && input.event_type == t

/-- List-level filter matching: a candidate matches a filter list when it
matches any filter in the list.  This mirrors the calls
filters.iter().any(|f| f.matches(input)) in widget/client/mod.rs and
widget/client/incoming.rs and the any_matches helper used by
widget/client/handler/state.rs and widget/client/matrix.rs. -/
def any_matches (filters : List EventFilter) (input : MatrixEventFilterInput) : Bool :=
  filters.any fun f => f.matches input

/-- Modelled from the spec: the Permissions capability set of section 3
(widget/permissions.rs is not available): ordered read and send filter
lists plus the requires_client flag. -/
structure Permissions where
  read : List EventFilter
  send : List EventFilter
  requires_client : Bool
deriving DecidableEq, Repr

/-- Default permissions: empty filter lists, mirroring
Permissions::default() used by handler/state.rs State::new. -/
def Permissions.default : Permissions :=
  { read := [], send := [], requires_client := false }

namespace client_messages

/-- The message header of widget/client/messages/mod.rs: a correlation id
and the widget id, serialized in camelCase as requestId and widgetId. -/
structure Header where
  request_id : String
  widget_id : String
deriving DecidableEq, Repr

/-- The zero-field unit payload of widget/client/messages/mod.rs. -/
structure Empty where
deriving DecidableEq, Repr

/-- Error content carrying a message string
(widget/client/messages/mod.rs). -/
structure ErrorContent where
  message : String
deriving DecidableEq, Repr

/-- The error body wrapper of widget/client/messages/mod.rs. -/
structure ErrorBody where
  error : ErrorContent
deriving DecidableEq, Repr

/-- Mirrors ErrorBody::new. -/
def ErrorBody.new (message : String) : ErrorBody :=
  { error := { message := message } }

/-- The untagged response body of widget/client/messages/mod.rs: either a
success payload or a declared failure. -/
inductive ResponseBody (T : Type) where
  | Success (value : T) : ResponseBody T
  | Failure (error : ErrorBody) : ResponseBody T
deriving Repr

/-- Tells whether a response body is a declared failure. -/
def ResponseBody.isFailure {T : Type} : ResponseBody T → Bool
  | .Success _ => false
  | .Failure _ => true

/-- The request wrapper of widget/client/messages/mod.rs; its content is
serialized under the data key. -/
structure Request (T : Type) where
  content : T
deriving Repr

/-- The response wrapper of widget/client/messages/mod.rs; it echoes the
original request content under the data key. -/
structure Response (Req Resp : Type) where
  request : Req
  response : ResponseBody Resp
deriving Repr

/-- Mirrors Request::map in widget/client/messages/mod.rs: consume a
request and build the response echoing the request content. -/
def Request.map {T R : Type} (req : Request T) (result : Except String R) :
    Response T R :=
  { request := req.content,
    response :=
      match result with
      | .ok r => .Success r
      | .error e => .Failure (ErrorBody.new e) }

end client_messages

/-- The OpenId token bundle of widget/client/messages/openid.rs, carrying
the original request id alongside the token data. -/
structure OpenIdState where
  id : String
  token : String
  expires_in_seconds : Nat
  server : String
  kind : String
deriving DecidableEq, Repr

/-- The OpenId response of widget/client/messages/openid.rs, tagged by a
state field on the wire (allowed, blocked, or request for pending). -/
inductive OpenIdResponse where
  | Allowed (state : OpenIdState) : OpenIdResponse
  | Blocked : OpenIdResponse
  | Pending : OpenIdResponse
deriving DecidableEq, Repr

namespace from_widget

/-- Modelled from the spec: the body of a send_event request, as used by
ClientApi::process and by the From impl in widget/client/incoming.rs
lines 210 to 218 (widget/client/messages/from_widget.rs is not
available): an event type, an optional state key and raw JSON content. -/
structure SendEventBody where
  event_type : String
  state_key : Option String
  content : Json
deriving Repr

/-- Modelled from the spec: the body of a read_events request as used by
ClientApi::process (event type, optional state key, optional limit). -/
structure ReadEventBody where
  event_type : String
  state_key : Option String
  limit : Option Nat
deriving DecidableEq, Repr

/-- Modelled from the spec: the response payload of a send_event request,
carrying the pair of room id and event id (ClientApi::process lines 251
to 254 builds it from strings). -/
structure SendEventResponse where
  room_id : String
  event_id : String
deriving DecidableEq, Repr

/-- Modelled from the spec: the response payload of a read_events
request, an ordered list of raw events. -/
structure ReadEventResponse where
  events : List Json
deriving Repr

/-- The hard-coded protocol versions enumerated by
SupportedApiVersionsResponse::new in widget/client/handler/state.rs. -/
inductive ApiVersion where
  | V0_0_1 : ApiVersion
  | V0_0_2 : ApiVersion
  | MSC2762 : ApiVersion
  | MSC2871 : ApiVersion
  | MSC3819 : ApiVersion
deriving DecidableEq, Repr

/-- The supported version list response
(widget/client/handler/state.rs lines 170 to 182). -/
structure SupportedApiVersionsResponse where
  versions : List ApiVersion
deriving DecidableEq, Repr

/-- Mirrors SupportedApiVersionsResponse::new. -/
def SupportedApiVersionsResponse.new : SupportedApiVersionsResponse :=
  { versions := [.V0_0_1, .V0_0_2, .MSC2762, .MSC2871, .MSC3819] }

/-- The tagged union of requests a widget may send, mirroring
RequestType used by ClientApi::process; wire tags follow spec section 6
(the defining file widget/client/messages/from_widget.rs is not
available, the variant set is fixed by the match in ClientApi::process). -/
inductive RequestType where
  | GetSupportedApiVersion (body : client_messages.Request client_messages.Empty) : RequestType
  | ContentLoaded (body : client_messages.Request client_messages.Empty) : RequestType
  | GetOpenId (body : client_messages.Request client_messages.Empty) : RequestType
  | SendEvent (body : client_messages.Request SendEventBody) : RequestType
  | ReadEvent (body : client_messages.Request ReadEventBody) : RequestType
deriving Repr

/-- The tagged union of responses the client sends back for widget
requests, mirroring ResponseType used by ClientApi::process. -/
inductive ResponseType where
  | GetSupportedApiVersion
      (body : client_messages.Response client_messages.Empty SupportedApiVersionsResponse) :
      ResponseType
  | ContentLoaded
      (body : client_messages.Response client_messages.Empty client_messages.Empty) :
      ResponseType
  | GetOpenId (body : client_messages.Response client_messages.Empty OpenIdResponse) :
      ResponseType
  | SendEvent (body : client_messages.Response SendEventBody SendEventResponse) : ResponseType
  | ReadEvent (body : client_messages.Response ReadEventBody ReadEventResponse) : ResponseType
deriving Repr

end from_widget

namespace to_widget

/-- The desired capability set returned by a widget for a capabilities
request (widget/client/messages/to_widget.rs). -/
structure CapabilitiesResponse where
  capabilities : Permissions
deriving DecidableEq, Repr

/-- The notify_capabilities payload: requested and approved permission
sets (widget/client/messages/to_widget.rs). -/
structure CapabilitiesUpdatedRequest where
  requested : Permissions
  approved : Permissions
deriving DecidableEq, Repr

/-- The tagged union of host-initiated requests sent to the widget
(widget/client/messages/to_widget.rs, Serialize side). -/
inductive RequestType where
  | CapabilitiesRequest (body : client_messages.Request client_messages.Empty) : RequestType
  | CapabilitiesUpdate (body : client_messages.Request CapabilitiesUpdatedRequest) : RequestType
  | OpenIdCredentialsUpdate (body : client_messages.Request OpenIdResponse) : RequestType
  | SendEvent (body : client_messages.Request Json) : RequestType
deriving Repr

/-- The tagged union of widget replies to host-initiated requests
(widget/client/messages/to_widget.rs, Deserialize side). -/
inductive ResponseType where
  | CapabilitiesRequest
      (body : client_messages.Response client_messages.Empty CapabilitiesResponse) : ResponseType
  | CapabilitiesUpdate
      (body : client_messages.Response CapabilitiesUpdatedRequest client_messages.Empty) :
      ResponseType
  | OpenIdCredentialsUpdate
      (body : client_messages.Response OpenIdResponse client_messages.Empty) : ResponseType
  | SendEvent (body : client_messages.Response Json client_messages.Empty) : ResponseType
deriving Repr

end to_widget

namespace client_messages

/-- The api-tagged union of message kinds a widget can deliver to the
client (widget/client/messages/mod.rs lines 20 to 26): requests from the
widget, or replies to requests the client initiated. -/
inductive IncomingMessageKind where
  | FromWidget (request : from_widget.RequestType) : IncomingMessageKind
  | ToWidget (response : to_widget.ResponseType) : IncomingMessageKind
deriving Repr

/-- An incoming message: a flattened header plus the api-tagged kind
(widget/client/messages/mod.rs lines 12 to 18). -/
structure IncomingMessage where
  header : Header
  kind : IncomingMessageKind
deriving Repr

/-- The api-tagged union of message kinds the client sends to a widget
(widget/client/messages/mod.rs lines 36 to 42). -/
inductive OutgoingMessageKind where
  | FromWidget (response : from_widget.ResponseType) : OutgoingMessageKind
  | ToWidget (request : to_widget.RequestType) : OutgoingMessageKind
deriving Repr

/-- An outgoing message: a flattened header plus the api-tagged kind
(widget/client/messages/mod.rs lines 28 to 34). -/
structure OutgoingMessage where
  header : Header
  kind : OutgoingMessageKind
deriving Repr

end client_messages

/-- Emits an optional object field: absent when the value is none,
mirroring serde skipping of absent optional fields. -/
def optField (key : String) : Option Json → List (String × Json)
  | none => []
  | some v => [(key, v)]

/-- Reads an optional string field: a missing field is none, a present
field must be a string, mirroring serde Option of String. -/
def Json.optStrField (j : Json) (key : String) : Option (Option String) :=
  match j.getField key with
  | none => some none
  | some v => v.asStr.map some

/-- Reads an optional numeric field, mirroring serde Option of u32. -/
def Json.optNatField (j : Json) (key : String) : Option (Option Nat) :=
  match j.getField key with
  | none => some none
  | some v => v.asNat.map some

/-- Modelled from the spec: the wire form of a single event filter (the
serde impls live in the unavailable widget/permissions.rs). -/
def EventFilter.toJson : EventFilter → Json
  | .MessageLike (.WithType t) =>
    .obj [("kind", .str "message_like_with_type"), ("type", .str t)]
  | .MessageLike (.RoomMessageWithMsgtype m) =>
    .obj [("kind", .str "room_message_with_msgtype"), ("msgtype", .str m)]
  | .State (.WithType t) =>
    .obj [("kind", .str "state_with_type"), ("type", .str t)]
  | .State (.WithTypeAndStateKey t k) =>
    .obj [("kind", .str "state_with_type_and_state_key"), ("type", .str t),
          ("state_key", .str k)]

/-- Modelled from the spec: decodes the wire form of a single filter. -/
def EventFilter.fromJson (j : Json) : Option EventFilter := do
  let kind ← j.getField "kind" >>= Json.asStr
  match kind with
  | "message_like_with_type" => do
    let t ← j.getField "type" >>= Json.asStr
    pure (.MessageLike (.WithType t))
  | "room_message_with_msgtype" => do
    let m ← j.getField "msgtype" >>= Json.asStr
    pure (.MessageLike (.RoomMessageWithMsgtype m))
  | "state_with_type" => do
    let t ← j.getField "type" >>= Json.asStr
    pure (.State (.WithType t))
  | "state_with_type_and_state_key" => do
    let t ← j.getField "type" >>= Json.asStr
    let k ← j.getField "state_key" >>= Json.asStr
    pure (.State (.WithTypeAndStateKey t k))
  | _ => none

/-- Modelled from the spec: the wire form of a Permissions set. -/
def Permissions.toJson (p : Permissions) : Json :=
  .obj [("read", .arr (p.read.map EventFilter.toJson)),
        ("send", .arr (p.send.map EventFilter.toJson)),
        ("requires_client", .bool p.requires_client)]

/-- Decodes a JSON array of filters elementwise, failing when any
element fails, as serde does for a sequence. -/
def decodeFilterList : List Json → Option (List EventFilter)
  | [] => some []
  | j :: js => do
    let f ← EventFilter.fromJson j
    let fs ← decodeFilterList js
    pure (f :: fs)

/-- Modelled from the spec: decodes the wire form of a Permissions set. -/
def Permissions.fromJson (j : Json) : Option Permissions := do
  let readJson ← j.getField "read"
  let sendJson ← j.getField "send"
  let rc ← j.getField "requires_client" >>= Json.asBool
  match readJson, sendJson with
  | .arr rs, .arr ss => do
    let read ← decodeFilterList rs
    let send ← decodeFilterList ss
    pure { read := read, send := send, requires_client := rc }
  | _, _ => none

/-- The wire form of an OpenId token bundle, with the field renames of
widget/client/messages/openid.rs. -/
def OpenIdState.toFields (s : OpenIdState) : List (String × Json) :=
  [("original_request_id", .str s.id), ("access_token", .str s.token),
   ("expires_in", .num (Int.ofNat s.expires_in_seconds)),
   ("matrix_server_name", .str s.server), ("token_type", .str s.kind)]

/-- Decodes an OpenId token bundle from the surrounding object. -/
def OpenIdState.fromJson (j : Json) : Option OpenIdState := do
  let id ← j.getField "original_request_id" >>= Json.asStr
  let token ← j.getField "access_token" >>= Json.asStr
  let expiry ← j.getField "expires_in" >>= Json.asNat
  let server ← j.getField "matrix_server_name" >>= Json.asStr
  let kind ← j.getField "token_type" >>= Json.asStr
  pure { id := id, token := token, expires_in_seconds := expiry,
         server := server, kind := kind }

/-- The wire form of an OpenId response: a state tag (allowed, blocked or
request) with the token fields inlined for the allowed case, mirroring
the serde tag attribute in widget/client/messages/openid.rs. -/
def OpenIdResponse.toJson : OpenIdResponse → Json
  | .Allowed s => .obj (("state", .str "allowed") :: s.toFields)
  | .Blocked => .obj [("state", .str "blocked")]
  | .Pending => .obj [("state", .str "request")]

/-- Decodes an OpenId response by its state tag. -/
def OpenIdResponse.fromJson (j : Json) : Option OpenIdResponse := do
  let tag ← j.getField "state" >>= Json.asStr
  match tag with
  | "allowed" => (OpenIdState.fromJson j).map .Allowed
  | "blocked" => some .Blocked
  | "request" => some .Pending
  | _ => none

namespace client_messages

/-- The flattened header fields, camelCase as in the serde derive. -/
def Header.toFields (h : Header) : List (String × Json) :=
  [("requestId", .str h.request_id), ("widgetId", .str h.widget_id)]

/-- Serializes the unit payload as an empty object. -/
def Empty.toJson (_ : Empty) : Json := .obj []

/-- Deserializes the unit payload: any object is accepted and its fields
are ignored, exactly as the serde derive for a braced struct with no
fields and no deny_unknown_fields attribute behaves. -/
def Empty.fromJson : Json → Option Empty
  | .obj _ => some {}
  | _ => none

/-- Serializes an error body as an error object with a message. -/
def ErrorBody.toJson (e : ErrorBody) : Json :=
  .obj [("error", .obj [("message", .str e.error.message)])]

/-- Deserializes an error body. -/
def ErrorBody.fromJson (j : Json) : Option ErrorBody := do
  let e ← j.getField "error"
  let m ← e.getField "message" >>= Json.asStr
  pure (ErrorBody.new m)

/-- Serializes the untagged response body: a success serializes its
payload directly, a failure serializes the error body. -/
def ResponseBody.toJson {T : Type} (encT : T → Json) : ResponseBody T → Json
  | .Success v => encT v
  | .Failure e => e.toJson

/-- Deserializes the untagged response body the way serde resolves an
untagged enum: the variants are tried in declaration order and the first
that parses wins, so Success is attempted before Failure. -/
def ResponseBody.fromJson {T : Type} (decT : Json → Option T) (j : Json) :
    Option (ResponseBody T) :=
  match decT j with
  | some v => some (.Success v)
  | none => (ErrorBody.fromJson j).map .Failure

/-- The flattened fields of a request wrapper: the content under data. -/
def Request.toFields {T : Type} (encT : T → Json) (r : Request T) :
    List (String × Json) :=
  [("data", encT r.content)]

/-- Deserializes a request wrapper from the surrounding object. -/
def Request.fromJson {T : Type} (decT : Json → Option T) (j : Json) :
    Option (Request T) := do
  let d ← j.getField "data"
  let c ← decT d
  pure { content := c }

/-- The flattened fields of a response wrapper: the echoed request under
data plus the response body. -/
def Response.toFields {Req Resp : Type} (encReq : Req → Json) (encResp : Resp → Json)
    (r : Response Req Resp) : List (String × Json) :=
  [("data", encReq r.request), ("response", ResponseBody.toJson encResp r.response)]

/-- Deserializes a response wrapper from the surrounding object. -/
def Response.fromJson {Req Resp : Type} (decReq : Json → Option Req)
    (decResp : Json → Option Resp) (j : Json) : Option (Response Req Resp) := do
  let d ← j.getField "data"
  let req ← decReq d
  let r ← j.getField "response"
  let resp ← ResponseBody.fromJson decResp r
  pure { request := req, response := resp }

end client_messages

namespace from_widget

/-- Modelled from the spec: the wire form of a send_event body (type,
optional state_key, content), matching the serde renames visible on
SendEventCommand in widget/client/mod.rs. -/
def SendEventBody.toJson (b : SendEventBody) : Json :=
  .obj ([("type", .str b.event_type)]
    ++ optField "state_key" (b.state_key.map .str)
    ++ [("content", b.content)])

/-- Modelled from the spec: decodes a send_event body. -/
def SendEventBody.fromJson (j : Json) : Option SendEventBody := do
  let t ← j.getField "type" >>= Json.asStr
  let sk ← j.optStrField "state_key"
  let c ← j.getField "content"
  pure { event_type := t, state_key := sk, content := c }

/-- Modelled from the spec: the wire form of a read_events body (type,
optional state_key, optional limit). -/
def ReadEventBody.toJson (b : ReadEventBody) : Json :=
  .obj ([("type", .str b.event_type)]
    ++ optField "state_key" (b.state_key.map .str)
    ++ optField "limit" (b.limit.map fun n => .num (Int.ofNat n)))

/-- Modelled from the spec: decodes a read_events body. -/
def ReadEventBody.fromJson (j : Json) : Option ReadEventBody := do
  let t ← j.getField "type" >>= Json.asStr
  let sk ← j.optStrField "state_key"
  let lim ← j.optNatField "limit"
  pure { event_type := t, state_key := sk, limit := lim }

/-- The action tag and flattened body fields of a widget request, wire
action names from spec section 6. -/
def RequestType.toFields : RequestType → List (String × Json)
  | .GetSupportedApiVersion r =>
    ("action", .str "supported_api_versions")
      :: client_messages.Request.toFields client_messages.Empty.toJson r
  | .ContentLoaded r =>
    ("action", .str "content_loaded")
      :: client_messages.Request.toFields client_messages.Empty.toJson r
  | .GetOpenId r =>
    ("action", .str "get_openid")
      :: client_messages.Request.toFields client_messages.Empty.toJson r
  | .SendEvent r =>
    ("action", .str "send_event")
      :: client_messages.Request.toFields SendEventBody.toJson r
  | .ReadEvent r =>
    ("action", .str "read_events")
      :: client_messages.Request.toFields ReadEventBody.toJson r

/-- Decodes a widget request by its action tag, reading the flattened
request wrapper from the same object, as serde does for an internally
tagged enum. -/
def RequestType.fromJson (j : Json) : Option RequestType := do
  let tag ← j.getField "action" >>= Json.asStr
  match tag with
  | "supported_api_versions" =>
    (client_messages.Request.fromJson client_messages.Empty.fromJson j).map .GetSupportedApiVersion
  | "content_loaded" =>
    (client_messages.Request.fromJson client_messages.Empty.fromJson j).map .ContentLoaded
  | "get_openid" =>
    (client_messages.Request.fromJson client_messages.Empty.fromJson j).map .GetOpenId
  | "send_event" =>
    (client_messages.Request.fromJson SendEventBody.fromJson j).map .SendEvent
  | "read_events" =>
    (client_messages.Request.fromJson ReadEventBody.fromJson j).map .ReadEvent
  | _ => none

end from_widget

namespace to_widget

/-- Serializes the desired capability set. -/
def CapabilitiesResponse.toJson (c : CapabilitiesResponse) : Json :=
  .obj [("capabilities", c.capabilities.toJson)]

/-- Deserializes the desired capability set; the capabilities field is
required, so an error object never parses as this payload. -/
def CapabilitiesResponse.fromJson (j : Json) : Option CapabilitiesResponse := do
  let c ← j.getField "capabilities" >>= Permissions.fromJson
  pure { capabilities := c }

/-- Serializes the notify_capabilities payload. -/
def CapabilitiesUpdatedRequest.toJson (c : CapabilitiesUpdatedRequest) : Json :=
  .obj [("requested", c.requested.toJson), ("approved", c.approved.toJson)]

/-- Deserializes the notify_capabilities payload. -/
def CapabilitiesUpdatedRequest.fromJson (j : Json) : Option CapabilitiesUpdatedRequest := do
  let req ← j.getField "requested" >>= Permissions.fromJson
  let app ← j.getField "approved" >>= Permissions.fromJson
  pure { requested := req, approved := app }

/-- The action tag and flattened body fields of a widget reply to a host
initiated request, action names from widget/client/messages/to_widget.rs. -/
def ResponseType.toFields : ResponseType → List (String × Json)
  | .CapabilitiesRequest r =>
    ("action", .str "capabilities")
      :: client_messages.Response.toFields client_messages.Empty.toJson
          CapabilitiesResponse.toJson r
  | .CapabilitiesUpdate r =>
    ("action", .str "notify_capabilities")
      :: client_messages.Response.toFields CapabilitiesUpdatedRequest.toJson
          client_messages.Empty.toJson r
  | .OpenIdCredentialsUpdate r =>
    ("action", .str "openid_credentials")
      :: client_messages.Response.toFields OpenIdResponse.toJson
          client_messages.Empty.toJson r
  | .SendEvent r =>
    ("action", .str "send_event")
      :: client_messages.Response.toFields id client_messages.Empty.toJson r

/-- Decodes a widget reply by its action tag, mirroring the Deserialize
derive on ResponseType in widget/client/messages/to_widget.rs. -/
def ResponseType.fromJson (j : Json) : Option ResponseType := do
  let tag ← j.getField "action" >>= Json.asStr
  match tag with
  | "capabilities" =>
    (client_messages.Response.fromJson client_messages.Empty.fromJson
      CapabilitiesResponse.fromJson j).map .CapabilitiesRequest
  | "notify_capabilities" =>
    (client_messages.Response.fromJson CapabilitiesUpdatedRequest.fromJson
      client_messages.Empty.fromJson j).map .CapabilitiesUpdate
  | "openid_credentials" =>
    (client_messages.Response.fromJson OpenIdResponse.fromJson
      client_messages.Empty.fromJson j).map .OpenIdCredentialsUpdate
  | "send_event" =>
    (client_messages.Response.fromJson some
      client_messages.Empty.fromJson j).map .SendEvent
  | _ => none

end to_widget

namespace client_messages

/-- The api tag of an incoming message kind, camelCase per the serde
rename attribute in widget/client/messages/mod.rs. -/
def IncomingMessageKind.apiTag : IncomingMessageKind → String
  | .FromWidget _ => "fromWidget"
  | .ToWidget _ => "toWidget"

/-- The flattened action and body fields of an incoming message kind. -/
def IncomingMessageKind.toFields : IncomingMessageKind → List (String × Json)
  | .FromWidget req => req.toFields
  | .ToWidget resp => resp.toFields

/-- Modelled from the spec: the encoder for widget-to-host messages (the
Serialize half lives inside the widget, outside this repository); it
mirrors the serde attributes on the Deserialize derives of
IncomingMessage in widget/client/messages/mod.rs: flattened camelCase
header, api tag, action tag, flattened body. -/
def IncomingMessage.toJson (m : IncomingMessage) : Json :=
  .obj (m.header.toFields ++ ("api", .str m.kind.apiTag) :: m.kind.toFields)

/-- Decodes an incoming message, mirroring the Deserialize derives of
IncomingMessage and IncomingMessageKind in
widget/client/messages/mod.rs: the flattened header and the api tagged
kind are read from the same top level object. -/
def IncomingMessage.fromJson (j : Json) : Option IncomingMessage := do
  let rid ← j.getField "requestId" >>= Json.asStr
  let wid ← j.getField "widgetId" >>= Json.asStr
  let api ← j.getField "api" >>= Json.asStr
  let kind ←
    match api with
    | "fromWidget" => (from_widget.RequestType.fromJson j).map IncomingMessageKind.FromWidget
    | "toWidget" => (to_widget.ResponseType.fromJson j).map IncomingMessageKind.ToWidget
    | _ => none
  pure { header := { request_id := rid, widget_id := wid }, kind := kind }

end client_messages

namespace widget_proxy

/-- State of the outbound request correlator of
widget/client/widget.rs: the keys of the pending response map, the ids
whose oneshot channel received a reply (in delivery order; one list
entry per delivery), and the number of out-of-band unexpected response
errors sent via send_error.  The map is always mutated under its mutex,
so every operation below is one atomic critical section. -/
structure ProxyState where
  pending : List String
  resolved : List String
  unexpectedErrors : Nat
deriving DecidableEq, Repr

/-- The empty pending map of WidgetProxy::new. -/
def ProxyState.initial : ProxyState :=
  { pending := [], resolved := [], unexpectedErrors := 0 }

/-- Mirrors the insert at widget.rs line 58: a one-shot channel is
parked in the pending map under the fresh request id.  HashMap insert
replaces any entry under the same key, hence the erase before cons. -/
def insertPending (s : ProxyState) (id : String) : ProxyState :=
  { s with pending := id :: s.pending.erase id }

/-- Mirrors the removal in the timeout branch at widget.rs line 66. -/
def timeoutRemove (s : ProxyState) (id : String) : ProxyState :=
  { s with pending := s.pending.erase id }

/-- Mirrors WidgetProxy::handle_widget_response (widget.rs lines 99 to
112): when a pending entry exists for the echoed request id it is
removed and the reply is delivered to its oneshot channel; otherwise an
out-of-band unexpected response error is sent and nothing is resolved. -/
def handleWidgetResponse (s : ProxyState) (id : String) : ProxyState :=
  if s.pending.contains id then
    { s with pending := s.pending.erase id, resolved := s.resolved ++ [id] }
  else
    { s with unexpectedErrors := s.unexpectedErrors + 1 }

/-- The fixed reply bound of WidgetProxy::send, from
Duration::from_secs(10) at widget.rs line 63. -/
def timeoutSeconds : Nat := 10

/-- The error type of the handler module as used by widget.rs:
disconnection, a custom message, or an error reply from the widget. -/
inductive ProxyError where
  | WidgetDisconnected : ProxyError
  | Custom (message : String) : ProxyError
  | WidgetErrorReply (message : String) : ProxyError
deriving DecidableEq, Repr

/-- How one call of WidgetProxy::send resolves: the transport write
fails, no reply arrives within the bound, or a reply is delivered. -/
inductive SendOutcome where
  | writeFailed : SendOutcome
  | timeout : SendOutcome
  | replied (reply : to_widget.ResponseType) : SendOutcome

/-- Mirrors WidgetProxy::send (widget.rs lines 45 to 76) for one fresh
request id.  The write happens before the pending insert, so a failed
write returns WidgetDisconnected with the map untouched.  On timeout the
still-present entry is removed and a custom timeout error is returned.
On a delivered reply the entry has been consumed by
handle_widget_response; the typed extraction mirrors
T::from_response_type followed by the invalid response and widget error
reply mappings. -/
def send {R : Type} (s : ProxyState) (id : String)
    (extract : to_widget.ResponseType → Option (Except String R)) :
    SendOutcome → ProxyState × Except ProxyError R
  | .writeFailed => (s, .error .WidgetDisconnected)
  | .timeout =>
    (timeoutRemove (insertPending s id) id,
     .error (.Custom "Timeout reached while waiting for reply"))
  | .replied reply =>
    (handleWidgetResponse (insertPending s id) id,
     match extract reply with
     | none => .error (.Custom "Widget sent invalid response")
     | some (.ok r) => .ok r
     | some (.error e) => .error (.WidgetErrorReply e))

/-- The atomic critical sections that touch the pending map, keyed by
the request id they concern. -/
inductive ProxyEvent where
  | insert (id : String) : ProxyEvent
  | timeout (id : String) : ProxyEvent
  | reply (id : String) : ProxyEvent
deriving DecidableEq, Repr

/-- One critical section applied to the shared state. -/
def stepProxy (s : ProxyState) : ProxyEvent → ProxyState
  | .insert id => insertPending s id
  | .timeout id => timeoutRemove s id
  | .reply id => handleWidgetResponse s id

/-- Replays a sequence of critical sections from a starting state. -/
def runProxyFrom (s : ProxyState) (events : List ProxyEvent) : ProxyState :=
  events.foldl stepProxy s

/-- Replays a sequence of critical sections on a fresh proxy. -/
def runProxy (events : List ProxyEvent) : ProxyState :=
  runProxyFrom ProxyState.initial events

/-- Counts how many sends insert a given request id; uniqueness of the
UUID generated per send makes this at most one per id in any real
session trace. -/
def insertCount (events : List ProxyEvent) (id : String) : Nat :=
  (events.filter (· = ProxyEvent.insert id)).length

end widget_proxy

/-- Modelled from the spec: deserializing a raw timeline event into the
filter input shape (raw.deserialize_as in the sources): the type field
is required, state_key is optional, a missing content defaults to empty,
a malformed content makes the whole candidate fail to parse.  Spec
section 4.2 prescribes that candidates failing to parse never match. -/
def MatrixEventFilterInput.fromJson (j : Json) : Option MatrixEventFilterInput := do
  let t ← j.getField "type" >>= Json.asStr
  let sk ← j.optStrField "state_key"
  let c ←
    match j.getField "content" with
    | none => some MatrixEventContent.default
    | some cj => MatrixEventContent.fromJson cj
  pure { event_type := t, state_key := sk, content := c }

namespace handler_state

/-- The state key selector of a read request: a specific key or the any
selector.  The defining file of the from_widget messages is not
available; the Key variant is matched in handler/state.rs line 217 and
the Any variant is named in the comment at line 193. -/
inductive StateKeySelector where
  | Key (state_key : String) : StateKeySelector
  | Any : StateKeySelector
deriving DecidableEq, Repr

/-- The read_events request of the handler world, as consumed by the
read function in handler/state.rs: an event type, an optional state key
selector and an optional limit. -/
structure ReadEventRequest where
  event_type : String
  state_key : Option StateKeySelector
  limit : Option Nat
deriving DecidableEq, Repr

/-- The send_event request of the handler world, as consumed by the send
function in handler/state.rs: an event type, an optional state key and
raw JSON content. -/
structure SendEventRequest where
  event_type : String
  state_key : Option String
  content : Json
deriving Repr

/-- The read_events response: the filtered ordered event list. -/
structure ReadEventResponse where
  events : List Json
deriving Repr

/-- The send_event response carrying the room id and the event id
(handler/state.rs line 286). -/
structure SendEventResponse where
  room_id : String
  event_id : String
deriving DecidableEq, Repr

/-- The slice of MessagesOptions that the read function fills in
(handler/state.rs lines 208 to 213): backward pagination, the limit and
the server side event type filter. -/
structure MessagesOptions where
  backward : Bool
  limit : Nat
  filterTypes : Option (List String)
deriving DecidableEq, Repr

/-- Oracle for the external room collaborator used by the read and send
functions of handler/state.rs: the room id, the paginated message fetch
and the two raw send endpoints. -/
structure Room where
  roomId : String
  messages : MessagesOptions → Except String (List Json)
  send_state_event_raw : Json → String → String → Except String String
  send_raw : Json → String → Except String String

/-- Modelled from the spec: MatrixEventFilterInput::from_send_event_request
(widget/filter.rs is not available); it mirrors the parallel From impl
for the send body in widget/client/incoming.rs lines 210 to 218: the
type and state key are taken verbatim and a content that fails to
deserialize is replaced by the default empty content. -/
def from_send_event_request (req : SendEventRequest) : MatrixEventFilterInput :=
  { event_type := req.event_type, state_key := req.state_key,
    content := (MatrixEventContent.fromJson req.content).getD MatrixEventContent.default }

/-- The additional state key filter of the read function
(handler/state.rs lines 216 to 226): when the request selects a specific
key, the candidate must also match a state filter with that exact type
and key; otherwise everything passes. -/
def state_key_filter (req : ReadEventRequest) (ev : MatrixEventFilterInput) : Bool :=
  match req.state_key with
  | some (.Key k) => (EventFilter.State (.WithTypeAndStateKey req.event_type k)).matches ev
  | _ => true

/-- Mirrors the read function of handler/state.rs lines 194 to 247.  The
second component records the MessagesOptions handed to the room
collaborator, none when the permission check failed before any fetch.
An empty read filter list fails immediately; otherwise the limit
defaults to 1 for a request with a state_key field and 50 without one,
the fetch is filtered through the read filters and the state key filter,
and candidates that fail to parse are dropped. -/
def read (room : Room) (req : ReadEventRequest) (filters : List EventFilter) :
    Except String ReadEventResponse × Option MessagesOptions :=
  if filters.isEmpty then
    (.error "No permissions to read any events", none)
  else
    let limit := req.limit.getD (match req.state_key with | some _ => 1 | none => 50)
    let options : MessagesOptions :=
      { backward := true, limit := limit, filterTypes := some [req.event_type] }
    match room.messages options with
    | .error e => (.error e, some options)
    | .ok chunk =>
      let events := chunk.filter fun raw =>
        match MatrixEventFilterInput.fromJson raw with
        | some filterIn => any_matches filters filterIn && state_key_filter req filterIn
        | none => false
      (.ok { events := events }, some options)

/-- The endpoint choice of handler/state.rs lines 271 to 284: a request
with a state key goes to send_state_event_raw, one without goes to
send_raw; the result is the event id. -/
def collabSend (room : Room) (req : SendEventRequest) : Except String String :=
  match req.state_key with
  | some k => room.send_state_event_raw req.content req.event_type k
  | none => room.send_raw req.content req.event_type

/-- Mirrors the send function of handler/state.rs lines 249 to 287.  The
second component tells whether the send was forwarded to the room
collaborator.  An empty send filter list fails with no permissions, a
filter mismatch fails with not allowed by filter, and otherwise the raw
send endpoint is chosen by the presence of the state key and the room id
and resulting event id are returned. -/
def send (room : Room) (req : SendEventRequest) (filters : List EventFilter) :
    Except String SendEventResponse × Bool :=
  if filters.isEmpty then
    (.error "No permissions to send events", false)
  else if !(any_matches filters (from_send_event_request req)) then
    (.error "Message not allowed by filter", false)
  else
    (match collabSend room req with
     | .ok eventId => .ok { room_id := room.roomId, event_id := eventId }
     | .error e => .error e, true)

/-- The session state of the handler world state machine
(handler/state.rs lines 34 to 48): the init_on_load widget setting, the
negotiated permissions, whether a live event listener is held, and the
initialized flag.  State::new starts with default permissions, no
listener and initialized false. -/
structure State where
  init_on_load : Bool
  permissions : Permissions
  listener : Bool
  initialized : Bool
deriving DecidableEq, Repr

/-- Mirrors State::new with the given widget setting. -/
def State.new (init_on_load : Bool) : State :=
  { init_on_load := init_on_load, permissions := Permissions.default,
    listener := false, initialized := false }

/-- Mirrors State::initialize (handler/state.rs lines 127 to 163)
together with Driver::initialize (widget/client/matrix.rs lines 38 to
52): the arbitration outcome is written to the permissions field and a
listener is set up exactly when the approved read list is not empty.  No
other field of the state is assigned; in particular the initialized
flag is left untouched by the source. -/
def State.initializePermissions (s : State) (approved : Permissions) : State :=
  { s with permissions := approved, listener := !approved.read.isEmpty }

/-- Mirrors the ContentLoaded arm of State::handle (handler/state.rs
lines 82 to 92): the reply and the negotiate decision are read from the
pair of init_on_load and initialized, the reply is sent, and when
negotiation is requested the initialize routine runs to completion (the
arbitration outcome is the approved argument).  Returns the new state,
the reply and whether negotiation was triggered. -/
def State.contentLoaded (s : State) (approved : Permissions) :
    State × Except String client_messages.Empty × Bool :=
  match s.init_on_load, s.initialized with
  | true, false => (s.initializePermissions approved, .ok {}, true)
  | true, true => (s, .error "Already loaded", false)
  | _, _ => (s, .ok {}, false)

end handler_state

/-- The OpenId token data returned by the homeserver, as consumed by
OpenIdState::new in widget/client/messages/openid.rs. -/
structure RumaOpenIdResponse where
  access_token : String
  expires_in_seconds : Nat
  matrix_server_name : String
  token_type : String
deriving DecidableEq, Repr

/-- Mirrors OpenIdState::new in widget/client/messages/openid.rs. -/
def OpenIdState.new (id : String) (ruma : RumaOpenIdResponse) : OpenIdState :=
  { id := id, token := ruma.access_token,
    expires_in_seconds := ruma.expires_in_seconds,
    server := ruma.matrix_server_name, kind := ruma.token_type }

namespace client_api

/-- The send command forwarded to the client driver; SendEventCommand in
widget/client/mod.rs has exactly the fields of the send body. -/
abbrev SendEventCommand := from_widget.SendEventBody

/-- The read command forwarded to the client driver
(widget/client/mod.rs lines 343 to 349). -/
structure ReadEventCommand where
  event_type : String
  limit : Nat
deriving DecidableEq, Repr

/-- The state of the ClientApi state machine of widget/client/mod.rs:
the init_on_content_load flag, the shared permissions cell (none until a
negotiation task completes) and the room id. -/
structure ClientApi where
  init_on_content_load : Bool
  permissions : Option Permissions
  room_id : String

/-- The observable effects of processing one event: messages sent to the
widget, a spawned capability negotiation, commands forwarded to the
client driver through the request proxy, and the OpenId follow-up
update pushed to the widget. -/
inductive Effect where
  | SendToWidget (msg : client_messages.OutgoingMessage) : Effect
  | Negotiate : Effect
  | ForwardReadEvent (cmd : ReadEventCommand) : Effect
  | ForwardSendEvent (cmd : SendEventCommand) : Effect
  | UpdateOpenId (response : OpenIdResponse) : Effect

/-- Oracles for the external collaborator calls that the spawned tasks
of ClientApi::process await: the OpenId token fetch, the room read and
the room send. -/
structure Oracles where
  openIdResult : Except String RumaOpenIdResponse
  readResult : Except String (List Json)
  sendResult : Except String String

/-- Mirrors the ContentLoaded arm of ClientApi::process
(widget/client/mod.rs lines 102 to 129): the reply and the negotiate
decision come from the pair of init_on_content_load and the current
content of the permissions cell; a negotiation task is spawned only when
negotiate is set. -/
def processContentLoaded (api : ClientApi) (header : client_messages.Header)
    (body : client_messages.Request client_messages.Empty) : List Effect :=
  let decision : Except String client_messages.Empty × Bool :=
    match api.init_on_content_load, api.permissions with
    | true, none => (.ok {}, true)
    | true, some _ => (.error "Already loaded", false)
    | _, _ => (.ok {}, false)
  let reply : client_messages.OutgoingMessage :=
    { header := header, kind := .FromWidget (.ContentLoaded (body.map decision.1)) }
  .SendToWidget reply :: (if decision.2 then [.Negotiate] else [])

/-- Mirrors the completion of a spawned negotiation task
(widget/client/mod.rs lines 122 to 127): the negotiated permissions
replace the content of the shared cell. -/
def completeNegotiation (api : ClientApi) (negotiated : Permissions) : ClientApi :=
  { api with permissions := some negotiated }

/-- Mirrors the GetOpenId arm of ClientApi::process (lines 130 to 154):
an immediate Pending reply, then the follow-up update carrying either
the allowed token bundle stamped with the original request id or
Blocked when the fetch failed. -/
def processGetOpenId (o : Oracles) (header : client_messages.Header)
    (body : client_messages.Request client_messages.Empty) : List Effect :=
  let reply : client_messages.OutgoingMessage :=
    { header := header, kind := .FromWidget (.GetOpenId (body.map (.ok .Pending))) }
  let update : OpenIdResponse :=
    match o.openIdResult with
    | .ok ruma => .Allowed (OpenIdState.new header.request_id ruma)
    | .error _ => .Blocked
  [.SendToWidget reply, .UpdateOpenId update]

/-- Mirrors the ReadEvent arm of ClientApi::process (lines 155 to 215):
the read filters are taken from the permissions cell (empty when none),
the gate input carries the default content, a failed gate replies no
permissions, and otherwise the read command with the caller limit or the
default of 50 is forwarded and the fetched events are filtered before
the reply. -/
def processReadEvent (api : ClientApi) (o : Oracles) (header : client_messages.Header)
    (body : client_messages.Request from_widget.ReadEventBody) : List Effect :=
  let filters := (api.permissions.map Permissions.read).getD []
  let input : MatrixEventFilterInput :=
    { event_type := body.content.event_type, state_key := body.content.state_key,
      content := MatrixEventContent.default }
  if !(any_matches filters input) then
    let reply : client_messages.OutgoingMessage :=
      { header := header,
        kind := .FromWidget (.ReadEvent (body.map (.error "No permissions to read events"))) }
    [.SendToWidget reply]
  else
    let cmd : ReadEventCommand :=
      { event_type := body.content.event_type, limit := body.content.limit.getD 50 }
    let response :=
      match o.readResult with
      | .ok events =>
        body.map (.ok { events := events.filter fun raw =>
          match MatrixEventFilterInput.fromJson raw with
          | some filterIn => any_matches filters filterIn
          | none => false })
      | .error e => body.map (.error e)
    let reply : client_messages.OutgoingMessage :=
      { header := header, kind := .FromWidget (.ReadEvent response) }
    [.ForwardReadEvent cmd, .SendToWidget reply]

/-- Mirrors the SendEvent arm of ClientApi::process (lines 216 to 267):
the send filters are taken from the permissions cell (empty when none),
the gate input carries the deserialized content or the default when
deserialization fails, a failed gate replies no permissions, and
otherwise the original body is forwarded to the room and the reply
carries the room id and the event id from the collaborator. -/
def processSendEvent (api : ClientApi) (o : Oracles) (header : client_messages.Header)
    (body : client_messages.Request from_widget.SendEventBody) : List Effect :=
  let filters := (api.permissions.map Permissions.send).getD []
  let input : MatrixEventFilterInput :=
    { event_type := body.content.event_type, state_key := body.content.state_key,
      content := (MatrixEventContent.fromJson body.content.content).getD
        MatrixEventContent.default }
  if !(any_matches filters input) then
    let reply : client_messages.OutgoingMessage :=
      { header := header,
        kind := .FromWidget (.SendEvent (body.map (.error "No permissions to send events"))) }
    [.SendToWidget reply]
  else
    let response :=
      match o.sendResult with
      | .ok eventId => body.map (.ok { room_id := api.room_id, event_id := eventId })
      | .error e => body.map (.error e)
    let reply : client_messages.OutgoingMessage :=
      { header := header, kind := .FromWidget (.SendEvent response) }
    [.ForwardSendEvent body.content, .SendToWidget reply]

/-- Mirrors the MessageFromWidget arm of ClientApi::process
(widget/client/mod.rs lines 87 to 274) given the serde parse outcome of
the raw text.  A text that fails to parse is silently dropped: the Err
branch at lines 271 to 274 only holds a comment, so no effect at all is
produced.  A reply to a host initiated request (the ToWidget kind) is
likewise ignored by this variant (line 269). -/
def process (api : ClientApi) (o : Oracles)
    (decoded : Option client_messages.IncomingMessage) : List Effect :=
  match decoded with
  | none => []
  | some msg =>
    match msg.kind with
    | .FromWidget req =>
      match req with
      | .GetSupportedApiVersion body =>
        let reply : client_messages.OutgoingMessage :=
          { header := msg.header,
            kind := .FromWidget (.GetSupportedApiVersion
              (body.map (.ok from_widget.SupportedApiVersionsResponse.new))) }
        [.SendToWidget reply]
      | .ContentLoaded body => processContentLoaded api msg.header body
      | .GetOpenId body => processGetOpenId o msg.header body
      | .ReadEvent body => processReadEvent api o msg.header body
      | .SendEvent body => processSendEvent api o msg.header body
    | .ToWidget _ => []

end client_api

namespace handler_state

/-- The page size as claim C7 words it: the caller limit when given,
otherwise 1 only for a state-event request with a specific state key and
50 in every other case.  This follows the words of the spec sentence,
for comparison against the read function embedded from the source. -/
def readLimitClaimed (req : ReadEventRequest) : Nat :=
  req.limit.getD
    (match req.state_key with
     | some (.Key _) => 1
     | _ => 50)

/-- A concrete room oracle for evaluating the handler functions: every
collaborator call succeeds with fixed data. -/
def cexRoom : Room :=
  { roomId := "!room:example.org",
    messages := fun _ => .ok [],
    send_state_event_raw := fun _ _ _ => .ok "$event",
    send_raw := fun _ _ => .ok "$event" }

end handler_state

namespace client_messages

/-- Tells whether a message contains a declared-failure response whose
success payload type is the zero-field Empty (the notify_capabilities,
openid_credentials and send_event replies).  For exactly these messages
the untagged response body decoding resolves to Success Empty instead of
the original failure. -/
def IncomingMessage.hasEmptyBodiedFailure (m : IncomingMessage) : Bool :=
  match m.kind with
  | .ToWidget (.CapabilitiesUpdate r) => r.response.isFailure
  | .ToWidget (.OpenIdCredentialsUpdate r) => r.response.isFailure
  | .ToWidget (.SendEvent r) => r.response.isFailure
  | _ => false

/-- A concrete message whose wire round trip loses information: a
declared-failure reply to a host initiated send_event request. -/
def roundtripCex : IncomingMessage :=
  { header := { request_id := "r1", widget_id := "w1" },
    kind := .ToWidget (.SendEvent
      { request := Json.obj [], response := .Failure (ErrorBody.new "boom") }) }

/-- The value that the wire round trip of roundtripCex actually decodes
to: the failure body has been replaced by a success with Empty. -/
def roundtripCexDecoded : IncomingMessage :=
  { header := { request_id := "r1", widget_id := "w1" },
    kind := .ToWidget (.SendEvent
      { request := Json.obj [], response := .Success {} }) }

end client_messages

deriving instance DecidableEq for Except

/-!
Theorems.  Each claim of the specification is settled by one theorem
below, preceded by helper lemmas shared between them.
-/

theorem filter_roundtrip (f : EventFilter) : EventFilter.fromJson f.toJson = some f := by
  rcases f with mf | sf
  · rcases mf with t | m <;>
      simp [EventFilter.fromJson, EventFilter.toJson, Json.getField, List.lookup, Json.asStr]
  · rcases sf with t | ⟨t, k⟩ <;>
      simp [EventFilter.fromJson, EventFilter.toJson, Json.getField, List.lookup, Json.asStr]

theorem filter_list_roundtrip (l : List EventFilter) :
    decodeFilterList (l.map EventFilter.toJson) = some l := by
  induction l with
  | nil => simp [decodeFilterList]
  | cons f fs ih => simp [decodeFilterList, filter_roundtrip, ih]

theorem permissions_roundtrip (p : Permissions) : Permissions.fromJson p.toJson = some p := by
  simp [Permissions.fromJson, Permissions.toJson, Json.getField, List.lookup, Json.asBool,
    filter_list_roundtrip]

theorem openid_roundtrip (r : OpenIdResponse) : OpenIdResponse.fromJson r.toJson = some r := by
  rcases r with s | _ | _ <;>
    simp [OpenIdResponse.fromJson, OpenIdResponse.toJson, OpenIdState.fromJson,
      OpenIdState.toFields, Json.getField, List.lookup, Json.asStr, Json.asNat]

theorem read_body_roundtrip (b : from_widget.ReadEventBody) :
    from_widget.ReadEventBody.fromJson b.toJson = some b := by
  rcases b with ⟨t, sk, lim⟩
  rcases sk with _ | k <;> rcases lim with _ | n <;>
    simp [from_widget.ReadEventBody.fromJson, from_widget.ReadEventBody.toJson, optField,
      Json.getField, List.lookup, Json.asStr, Json.asNat, Json.optStrField, Json.optNatField]

theorem send_body_roundtrip (b : from_widget.SendEventBody) :
    from_widget.SendEventBody.fromJson b.toJson = some b := by
  rcases b with ⟨t, sk, c⟩
  rcases sk with _ | k <;>
    simp [from_widget.SendEventBody.fromJson, from_widget.SendEventBody.toJson, optField,
      Json.getField, List.lookup, Json.asStr, Json.optStrField]

theorem cap_updated_roundtrip (c : to_widget.CapabilitiesUpdatedRequest) :
    to_widget.CapabilitiesUpdatedRequest.fromJson c.toJson = some c := by
  simp [to_widget.CapabilitiesUpdatedRequest.fromJson, to_widget.CapabilitiesUpdatedRequest.toJson,
    Json.getField, List.lookup, permissions_roundtrip]

theorem envelope_request_empty_roundtrip (h : client_messages.Header)
    (r : client_messages.Request client_messages.Empty)
    (mk : client_messages.Request client_messages.Empty → from_widget.RequestType)
    (hmk : mk = .GetSupportedApiVersion ∨ mk = .ContentLoaded ∨ mk = .GetOpenId) :
    client_messages.IncomingMessage.fromJson
        (client_messages.IncomingMessage.toJson { header := h, kind := .FromWidget (mk r) }) =
      some { header := h, kind := .FromWidget (mk r) } := by
  rcases r with ⟨⟨⟩⟩
  rcases hmk with hmk | hmk | hmk <;> subst hmk <;>
    simp [client_messages.IncomingMessage.fromJson, client_messages.IncomingMessage.toJson,
      client_messages.IncomingMessageKind.apiTag, client_messages.IncomingMessageKind.toFields,
      from_widget.RequestType.toFields, from_widget.RequestType.fromJson,
      client_messages.Request.toFields, client_messages.Request.fromJson,
      client_messages.Header.toFields, client_messages.Empty.toJson, client_messages.Empty.fromJson,
      Json.getField, List.lookup, Json.asStr]

/-- C5 (amended): encoding an in-memory message to its wire JSON and
decoding it back is the identity for every message that does not carry a
declared-failure response whose success payload type is Empty; for those
(the notify_capabilities, openid_credentials and send_event replies) the
untagged response body decodes as a success with the Empty payload and
equality fails, as the counterexample theorem shows. -/
theorem message_roundtrip_of_no_empty_bodied_failure
    (m : client_messages.IncomingMessage)
    (hsafe : client_messages.IncomingMessage.hasEmptyBodiedFailure m = false) :
    client_messages.IncomingMessage.fromJson (client_messages.IncomingMessage.toJson m) =
      some m := by
  rcases m with ⟨h, kind⟩
  rcases kind with req | resp
  · rcases req with r | r | r | r | r
    · exact envelope_request_empty_roundtrip h r _ (Or.inl rfl)
    · exact envelope_request_empty_roundtrip h r _ (Or.inr (Or.inl rfl))
    · exact envelope_request_empty_roundtrip h r _ (Or.inr (Or.inr rfl))
    · rcases r with ⟨b⟩
      simp [client_messages.IncomingMessage.fromJson, client_messages.IncomingMessage.toJson,
        client_messages.IncomingMessageKind.apiTag, client_messages.IncomingMessageKind.toFields,
        from_widget.RequestType.toFields, from_widget.RequestType.fromJson,
        client_messages.Request.toFields, client_messages.Request.fromJson,
        client_messages.Header.toFields, Json.getField, List.lookup, Json.asStr,
        send_body_roundtrip]
    · rcases r with ⟨b⟩
      simp [client_messages.IncomingMessage.fromJson, client_messages.IncomingMessage.toJson,
        client_messages.IncomingMessageKind.apiTag, client_messages.IncomingMessageKind.toFields,
        from_widget.RequestType.toFields, from_widget.RequestType.fromJson,
        client_messages.Request.toFields, client_messages.Request.fromJson,
        client_messages.Header.toFields, Json.getField, List.lookup, Json.asStr,
        read_body_roundtrip]
  · rcases resp with r | r | r | r
    · rcases r with ⟨⟨⟩, body⟩
      rcases body with v | e
      · rcases v with ⟨p⟩
        simp [client_messages.IncomingMessage.fromJson, client_messages.IncomingMessage.toJson,
          client_messages.IncomingMessageKind.apiTag, client_messages.IncomingMessageKind.toFields,
          to_widget.ResponseType.toFields, to_widget.ResponseType.fromJson,
          client_messages.Response.toFields, client_messages.Response.fromJson,
          client_messages.ResponseBody.toJson, client_messages.ResponseBody.fromJson,
          client_messages.Header.toFields, client_messages.Empty.toJson,
          client_messages.Empty.fromJson, to_widget.CapabilitiesResponse.toJson,
          to_widget.CapabilitiesResponse.fromJson, permissions_roundtrip,
          Json.getField, List.lookup, Json.asStr]
      · rcases e with ⟨⟨msg⟩⟩
        simp [client_messages.IncomingMessage.fromJson, client_messages.IncomingMessage.toJson,
          client_messages.IncomingMessageKind.apiTag, client_messages.IncomingMessageKind.toFields,
          to_widget.ResponseType.toFields, to_widget.ResponseType.fromJson,
          client_messages.Response.toFields, client_messages.Response.fromJson,
          client_messages.ResponseBody.toJson, client_messages.ResponseBody.fromJson,
          client_messages.Header.toFields, client_messages.Empty.toJson,
          client_messages.Empty.fromJson, to_widget.CapabilitiesResponse.toJson,
          to_widget.CapabilitiesResponse.fromJson, Permissions.fromJson,
          client_messages.ErrorBody.toJson, client_messages.ErrorBody.fromJson,
          client_messages.ErrorBody.new, Json.getField, List.lookup, Json.asStr]
    · rcases r with ⟨creq, body⟩
      rcases body with v | e
      · rcases v with ⟨⟩
        simp [client_messages.IncomingMessage.fromJson, client_messages.IncomingMessage.toJson,
          client_messages.IncomingMessageKind.apiTag, client_messages.IncomingMessageKind.toFields,
          to_widget.ResponseType.toFields, to_widget.ResponseType.fromJson,
          client_messages.Response.toFields, client_messages.Response.fromJson,
          client_messages.ResponseBody.toJson, client_messages.ResponseBody.fromJson,
          client_messages.Header.toFields, client_messages.Empty.toJson,
          client_messages.Empty.fromJson, cap_updated_roundtrip,
          Json.getField, List.lookup, Json.asStr]
      · simp [client_messages.IncomingMessage.hasEmptyBodiedFailure,
          client_messages.ResponseBody.isFailure] at hsafe
    · rcases r with ⟨oreq, body⟩
      rcases body with v | e
      · rcases v with ⟨⟩
        simp [client_messages.IncomingMessage.fromJson, client_messages.IncomingMessage.toJson,
          client_messages.IncomingMessageKind.apiTag, client_messages.IncomingMessageKind.toFields,
          to_widget.ResponseType.toFields, to_widget.ResponseType.fromJson,
          client_messages.Response.toFields, client_messages.Response.fromJson,
          client_messages.ResponseBody.toJson, client_messages.ResponseBody.fromJson,
          client_messages.Header.toFields, client_messages.Empty.toJson,
          client_messages.Empty.fromJson, openid_roundtrip,
          Json.getField, List.lookup, Json.asStr]
      · simp [client_messages.IncomingMessage.hasEmptyBodiedFailure,
          client_messages.ResponseBody.isFailure] at hsafe
    · rcases r with ⟨jreq, body⟩
      rcases body with v | e
      · rcases v with ⟨⟩
        simp [client_messages.IncomingMessage.fromJson, client_messages.IncomingMessage.toJson,
          client_messages.IncomingMessageKind.apiTag, client_messages.IncomingMessageKind.toFields,
          to_widget.ResponseType.toFields, to_widget.ResponseType.fromJson,
          client_messages.Response.toFields, client_messages.Response.fromJson,
          client_messages.ResponseBody.toJson, client_messages.ResponseBody.fromJson,
          client_messages.Header.toFields, client_messages.Empty.toJson,
          client_messages.Empty.fromJson, Json.getField, List.lookup, Json.asStr]
      · simp [client_messages.IncomingMessage.hasEmptyBodiedFailure,
          client_messages.ResponseBody.isFailure] at hsafe

/-- C5 (counterexample): the round-trip claim fails as stated: encoding
the concrete declared-failure send_event reply and decoding the result
yields a message whose response body is a success with Empty, not the
original failure; the decoded value is not equal to the original. -/
theorem message_roundtrip_counterexample :
    client_messages.IncomingMessage.fromJson
        (client_messages.IncomingMessage.toJson client_messages.roundtripCex) =
      some client_messages.roundtripCexDecoded ∧
    client_messages.roundtripCexDecoded ≠ client_messages.roundtripCex := by
  constructor
  · rfl
  · intro hEq
    simp [client_messages.roundtripCexDecoded, client_messages.roundtripCex,
      client_messages.ErrorBody.new] at hEq

/-- C5 (witness): the amended round-trip theorem applied to a concrete
read_events request message. -/
theorem message_roundtrip_of_no_empty_bodied_failure_witness :
    client_messages.IncomingMessage.hasEmptyBodiedFailure
        { header := { request_id := "r7", widget_id := "w1" },
          kind := .FromWidget (.ReadEvent { content :=
            { event_type := "m.room.topic", state_key := some "", limit := some 5 } }) } = false ∧
    client_messages.IncomingMessage.fromJson
        (client_messages.IncomingMessage.toJson
          { header := { request_id := "r7", widget_id := "w1" },
            kind := .FromWidget (.ReadEvent { content :=
              { event_type := "m.room.topic", state_key := some "", limit := some 5 } }) }) =
      some { header := { request_id := "r7", widget_id := "w1" },
             kind := .FromWidget (.ReadEvent { content :=
               { event_type := "m.room.topic", state_key := some "", limit := some 5 } }) } :=
  ⟨rfl, message_roundtrip_of_no_empty_bodied_failure _ rfl⟩

/-- C6: list-level event filter matching is a pure function with OR
semantics: the empty list matches nothing, and a list matches exactly
when some single filter of the list matches as a singleton list. -/
theorem any_matches_or_semantics (fs : List EventFilter) (x : MatrixEventFilterInput) :
    any_matches [] x = false ∧
    (any_matches fs x = true ↔ ∃ f ∈ fs, any_matches [f] x = true) := by
  refine ⟨rfl, ?_⟩
  simp [any_matches, List.any_eq_true]

/-- C9: when the transport write inside WidgetProxy::send fails, the
call returns the WidgetDisconnected error and the pending table is left
exactly as it was: the reply slot for the fresh request id is only
inserted after a successful write, so a failed send never leaks a
pending entry. -/
theorem send_write_failure_leaves_pending_unchanged {R : Type}
    (s : widget_proxy.ProxyState) (id : String)
    (extract : to_widget.ResponseType → Option (Except String R)) :
    widget_proxy.send s id extract .writeFailed = (s, .error .WidgetDisconnected) := rfl

/-- C4: a host-initiated request whose widget never replies fails after
the fixed bound with the timeout error, the bound is the 10 seconds the
protocol mandates, and immediately afterwards the pending table holds no
entry for the request id. -/
theorem send_timeout_removes_pending_entry {R : Type}
    (s : widget_proxy.ProxyState) (id : String)
    (extract : to_widget.ResponseType → Option (Except String R))
    (h : s.pending.contains id = false) :
    widget_proxy.timeoutSeconds = 10 ∧
    (widget_proxy.send s id extract .timeout).2 =
      .error (.Custom "Timeout reached while waiting for reply") ∧
    (widget_proxy.send s id extract .timeout).1.pending.contains id = false := by
  refine ⟨rfl, rfl, ?_⟩
  have hmem : id ∉ s.pending := by simpa using h
  show ((id :: s.pending.erase id).erase id).contains id = false
  rw [List.erase_cons_head, List.erase_of_not_mem hmem]
  exact h

/-- C4 (witness): the timeout theorem applied to the fresh proxy state
and a concrete request id. -/
theorem send_timeout_removes_pending_entry_witness :
    widget_proxy.ProxyState.initial.pending.contains "id1" = false ∧
    (widget_proxy.send (R := Unit) widget_proxy.ProxyState.initial "id1"
        (fun _ => none) .timeout).1.pending.contains "id1" = false :=
  ⟨rfl, (send_timeout_removes_pending_entry widget_proxy.ProxyState.initial "id1"
    (fun _ => none) rfl).2.2⟩

/-- C3: evaluation of the handler world ContentLoaded transition at the
scenario of the claim.  On a session created with init_on_load set, the
first ContentLoaded replies success and triggers negotiation, which runs
to completion here; but the second ContentLoaded on the resulting state
again replies success and triggers negotiation a second time instead of
failing with Already loaded, because handler/state.rs never sets the
initialized flag after negotiating. -/
theorem state_second_content_loaded_not_rejected :
    ((handler_state.State.new true).contentLoaded
        { read := [.State (.WithType "m.room.topic")], send := [], requires_client := false }).2 =
      (.ok {}, true) ∧
    (((handler_state.State.new true).contentLoaded
        { read := [.State (.WithType "m.room.topic")], send := [],
          requires_client := false }).1.contentLoaded
        { read := [.State (.WithType "m.room.topic")], send := [], requires_client := false }).2 =
      (.ok {}, true) ∧
    (((handler_state.State.new true).contentLoaded
        { read := [.State (.WithType "m.room.topic")], send := [],
          requires_client := false }).1.contentLoaded
        { read := [.State (.WithType "m.room.topic")], send := [], requires_client := false }).2 ≠
      (.error "Already loaded", false) := by
  refine ⟨rfl, rfl, ?_⟩
  decide

/-- The parallel ContentLoaded arm of the ClientApi variant in
widget/client/mod.rs behaves as the specification intends: once a
negotiation task has completed and filled the permissions cell, a second
ContentLoaded is answered with the Already loaded failure and spawns no
new negotiation. -/
theorem client_api_content_loaded_rejects_after_negotiation
    (api : client_api.ClientApi) (header : client_messages.Header)
    (body : client_messages.Request client_messages.Empty) (p : Permissions)
    (hinit : api.init_on_content_load = true) :
    client_api.processContentLoaded (client_api.completeNegotiation api p) header body =
      [client_api.Effect.SendToWidget { header := header, kind := .FromWidget (.ContentLoaded (body.map (.error "Already loaded"))) }] := by
  simp [client_api.processContentLoaded, client_api.completeNegotiation, hinit]

/-- C8: evaluation of ClientApi::process at the scenario of the claim.
A raw text that fails to decode produces no effect at all: in
particular, no out-of-band error message is sent to the widget, against
the one such message the claim requires.  The session does remain
alive: a subsequent well-formed request (here a version query) is still
answered normally. -/
theorem process_malformed_input_drops_silently
    (api : client_api.ClientApi) (o : client_api.Oracles) :
    client_api.process api o none = [] ∧
    ∀ (header : client_messages.Header) (body : client_messages.Request client_messages.Empty),
      client_api.process api o
          (some { header := header, kind := .FromWidget (.GetSupportedApiVersion body) }) =
        [client_api.Effect.SendToWidget { header := header, kind := .FromWidget (.GetSupportedApiVersion (body.map (.ok from_widget.SupportedApiVersionsResponse.new))) }] :=
  ⟨rfl, fun _ _ => rfl⟩

/-- C2: the permission gate of the send function in handler/state.rs.
The send is forwarded to the room collaborator exactly when the request
matches the send filter list (an empty list matches nothing, so both
failure conditions of the claim collapse into the gate); a failed gate
yields a failure reply and no forward, and a passed gate with a
successful collaborator call returns the pair of the room id of the
session and the event id produced by the collaborator. -/
theorem send_event_permission_gate (room : handler_state.Room)
    (req : handler_state.SendEventRequest) (filters : List EventFilter) :
    ((handler_state.send room req filters).2 =
      any_matches filters (handler_state.from_send_event_request req)) ∧
    (any_matches filters (handler_state.from_send_event_request req) = false →
      ∃ e, (handler_state.send room req filters).1 = .error e) ∧
    (∀ eventId, any_matches filters (handler_state.from_send_event_request req) = true →
      handler_state.collabSend room req = .ok eventId →
      (handler_state.send room req filters).1 =
        .ok { room_id := room.roomId, event_id := eventId }) := by
  rcases filters with _ | ⟨f, fs⟩
  · refine ⟨rfl, fun _ => ⟨"No permissions to send events", rfl⟩, fun eventId hgate _ => ?_⟩
    simp [any_matches] at hgate
  · cases hgate : any_matches (f :: fs) (handler_state.from_send_event_request req)
    · refine ⟨?_, fun _ => ⟨"Message not allowed by filter", ?_⟩, fun eventId hg _ => ?_⟩
      · simp [handler_state.send, hgate]
      · simp [handler_state.send, hgate]
      · simp at hg
    · cases hcollab : handler_state.collabSend room req with
      | ok eventId =>
        refine ⟨?_, fun hg => ?_, fun eid hg hc => ?_⟩
        · simp [handler_state.send, hgate, hcollab]
        · simp at hg
        · injection hc with h2
          subst h2
          simp [handler_state.send, hgate, hcollab]
      | error e =>
        refine ⟨?_, fun hg => ?_, fun eid hg hc => ?_⟩
        · simp [handler_state.send, hgate, hcollab]
        · simp at hg
        · simp at hc

/-- C2 (witness): the gate theorem applied to a concrete state event
send that matches the only filter, with the concrete room oracle. -/
theorem send_event_permission_gate_witness :
    any_matches [.State (.WithType "m.room.topic")]
        (handler_state.from_send_event_request
          { event_type := "m.room.topic", state_key := some "", content := Json.obj [] }) = true ∧
    (handler_state.send handler_state.cexRoom
        { event_type := "m.room.topic", state_key := some "", content := Json.obj [] }
        [.State (.WithType "m.room.topic")]).1 =
      .ok { room_id := "!room:example.org", event_id := "$event" } :=
  ⟨rfl, (send_event_permission_gate handler_state.cexRoom
    { event_type := "m.room.topic", state_key := some "", content := Json.obj [] }
    [.State (.WithType "m.room.topic")]).2.2 "$event" rfl rfl⟩

/-- C7 (counterexample): the read function of handler/state.rs at a
state-event request that selects the any selector rather than a
specific state key and gives no explicit limit.  The claim prescribes a
page size of 50 for every request that is not a state-event request
with a specific key, but the code passes a page size of 1 to the room
collaborator, because the default only inspects the presence of the
state_key field, not which selector it holds. -/
theorem read_default_limit_counterexample :
    (handler_state.read handler_state.cexRoom
        { event_type := "m.room.topic", state_key := some .Any, limit := none }
        [.State (.WithType "m.room.topic")]).2 =
      some { backward := true, limit := 1, filterTypes := some ["m.room.topic"] } ∧
    handler_state.readLimitClaimed
        { event_type := "m.room.topic", state_key := some .Any, limit := none } = 50 :=
  ⟨rfl, rfl⟩

/-- C7 (amended): the page size that the read function of
handler/state.rs hands to the room collaborator is the caller-specified
limit when one is given, and otherwise defaults to 1 for any request
whose state_key field is present (whether a specific key or the any
selector) and to 50 for a request without a state_key field; when the
read filter list is empty, no fetch happens at all. -/
theorem read_default_limit (room : handler_state.Room)
    (req : handler_state.ReadEventRequest) (filters : List EventFilter) :
    (filters = [] →
      handler_state.read room req filters =
        (.error "No permissions to read any events", none)) ∧
    (filters ≠ [] →
      (handler_state.read room req filters).2 =
        some { backward := true,
               limit := req.limit.getD
                 (match req.state_key with | some _ => 1 | none => 50),
               filterTypes := some [req.event_type] }) := by
  constructor
  · intro hnil
    subst hnil
    rfl
  · intro hne
    rcases filters with _ | ⟨f, fs⟩
    · exact absurd rfl hne
    · show (handler_state.read room req (f :: fs)).2 = _
      unfold handler_state.read
      simp only [List.isEmpty_cons, if_neg]
      cases room.messages
          { backward := true,
            limit := req.limit.getD (match req.state_key with | some _ => 1 | none => 50),
            filterTypes := some [req.event_type] } <;> simp

/-- C7 (witness): the amended theorem applied to a request with a
specific state key and no caller limit, where the default is 1. -/
theorem read_default_limit_witness :
    ([EventFilter.State (.WithType "m.room.topic")] ≠ []) ∧
    (handler_state.read handler_state.cexRoom
        { event_type := "m.room.topic", state_key := some (.Key "k"), limit := none }
        [.State (.WithType "m.room.topic")]).2 =
      some { backward := true, limit := 1, filterTypes := some ["m.room.topic"] } :=
  ⟨List.cons_ne_nil _ _,
   (read_default_limit handler_state.cexRoom
      { event_type := "m.room.topic", state_key := some (.Key "k"), limit := none }
      [.State (.WithType "m.room.topic")]).2 (List.cons_ne_nil _ _)⟩

/-- C10: a send_event request whose raw JSON content fails to
deserialize into the known content shape is not rejected as malformed by
the SendEvent arm of ClientApi::process: the permission gate is
evaluated against a filter input carrying the default empty content, and
when that gate passes, the original body (with its original raw content)
is forwarded to the room; when it fails, the only effect is the
not-allowed failure reply. -/
theorem send_event_malformed_content_defaults
    (api : client_api.ClientApi) (o : client_api.Oracles)
    (header : client_messages.Header)
    (body : client_messages.Request from_widget.SendEventBody)
    (hmal : MatrixEventContent.fromJson body.content.content = none) :
    (any_matches ((api.permissions.map Permissions.send).getD [])
        { event_type := body.content.event_type, state_key := body.content.state_key,
          content := MatrixEventContent.default } = true →
      (client_api.processSendEvent api o header body).head? =
        some (.ForwardSendEvent body.content)) ∧
    (any_matches ((api.permissions.map Permissions.send).getD [])
        { event_type := body.content.event_type, state_key := body.content.state_key,
          content := MatrixEventContent.default } = false →
      client_api.processSendEvent api o header body =
        [client_api.Effect.SendToWidget { header := header, kind := .FromWidget (.SendEvent (body.map (.error "No permissions to send events"))) }]) := by
  constructor
  · intro hgate
    simp [client_api.processSendEvent, hmal, hgate]
  · intro hgate
    simp [client_api.processSendEvent, hmal, hgate]

/-- C10 (witness): a concrete send_event body whose content is a bare
string (which fails to deserialize) passing a type filter that matches
with empty content, so the request is forwarded. -/
theorem send_event_malformed_content_defaults_witness :
    MatrixEventContent.fromJson (Json.str "junk") = none ∧
    (client_api.processSendEvent
        { init_on_content_load := false,
          permissions := some { read := [], send := [.MessageLike (.WithType "m.custom")], requires_client := false },
          room_id := "!room:example.org" }
        { openIdResult := .error "none", readResult := .ok [], sendResult := .ok "$event" }
        { request_id := "r9", widget_id := "w1" }
        { content := { event_type := "m.custom", state_key := none, content := Json.str "junk" } }).head? =
      some (.ForwardSendEvent { event_type := "m.custom", state_key := none, content := Json.str "junk" }) :=
  ⟨rfl,
   (send_event_malformed_content_defaults
      { init_on_content_load := false,
        permissions := some { read := [], send := [.MessageLike (.WithType "m.custom")], requires_client := false },
        room_id := "!room:example.org" }
      { openIdResult := .error "none", readResult := .ok [], sendResult := .ok "$event" }
      { request_id := "r9", widget_id := "w1" }
      { content := { event_type := "m.custom", state_key := none, content := Json.str "junk" } } rfl).1 rfl⟩

theorem insertCount_cons (e : widget_proxy.ProxyEvent) (evs : List widget_proxy.ProxyEvent)
    (id : String) :
    widget_proxy.insertCount (e :: evs) id =
      (if e = .insert id then 1 else 0) + widget_proxy.insertCount evs id := by
  simp only [widget_proxy.insertCount, List.filter_cons]
  split
  · next hdec =>
    simp only [List.length_cons, if_pos (of_decide_eq_true hdec)]
    omega
  · next hdec =>
    have : ¬ e = .insert id := by
      intro hcontra
      simp [hcontra] at hdec
    simp [this]

theorem runProxyFrom_resolved_count_le (events : List widget_proxy.ProxyEvent)
    (s : widget_proxy.ProxyState) (id : String) :
    (widget_proxy.runProxyFrom s events).resolved.count id ≤
      s.resolved.count id + s.pending.count id + widget_proxy.insertCount events id := by
  induction events generalizing s with
  | nil => simp [widget_proxy.runProxyFrom, widget_proxy.insertCount]
  | cons ev rest ih =>
    have hstep : widget_proxy.runProxyFrom s (ev :: rest) =
        widget_proxy.runProxyFrom (widget_proxy.stepProxy s ev) rest := rfl
    rw [hstep, insertCount_cons]
    have hih := ih (widget_proxy.stepProxy s ev)
    have hkey : (widget_proxy.stepProxy s ev).resolved.count id +
        (widget_proxy.stepProxy s ev).pending.count id ≤
        s.resolved.count id + s.pending.count id + (if ev = .insert id then 1 else 0) := by
      rcases ev with id0 | id0 | id0
      · by_cases hid : id0 = id
        · subst hid
          have : (s.pending.erase id0).count id0 = s.pending.count id0 - 1 :=
            List.count_erase_self id0 s.pending
          simp [widget_proxy.stepProxy, widget_proxy.insertPending, this]
          omega
        · have : (s.pending.erase id0).count id = s.pending.count id :=
            List.count_erase_of_ne (fun hcontra => hid hcontra.symm) s.pending
          simp [widget_proxy.stepProxy, widget_proxy.insertPending, this,
            List.count_cons, hid]
      · have : (s.pending.erase id0).count id ≤ s.pending.count id := by
          rw [List.count_erase]
          omega
        simp only [widget_proxy.stepProxy, widget_proxy.timeoutRemove]
        split <;> omega
      · simp only [widget_proxy.stepProxy, widget_proxy.handleWidgetResponse]
        by_cases hpend : s.pending.contains id0
        · rw [if_pos hpend]
          by_cases hid : id0 = id
          · subst hid
            have hcnt : (s.pending.erase id0).count id0 = s.pending.count id0 - 1 :=
              List.count_erase_self id0 s.pending
            have hpos : 0 < s.pending.count id0 :=
              List.count_pos_iff.mpr (by simpa using hpend)
            simp only [List.count_append, hcnt]
            have : List.count id0 [id0] = 1 := by simp
            split <;> omega
          · have hcnt : (s.pending.erase id0).count id = s.pending.count id :=
              List.count_erase_of_ne (fun hcontra => hid hcontra.symm) s.pending
            have : List.count id [id0] = 0 := by simp [List.count_singleton, hid]
            simp only [List.count_append, hcnt, this]
            split <;> omega
        · rw [if_neg hpend]
          dsimp only
          split <;> omega
    omega

/-- C1: at-most-once resolution of the pending outbound table of
WidgetProxy.  In every interleaving of the atomic critical sections
(inserts at send time, removals by timeout, removals by matching reply)
in which a given request id is inserted at most once (each send
generates a fresh UUID), the oneshot slot of that id is resolved at most
once; and a reply that arrives when the table holds no entry for its id
(for example after timeout expiry already removed it) only sends the
out-of-band unexpected response error and never resolves anything. -/
theorem pending_entry_resolved_at_most_once (events : List widget_proxy.ProxyEvent)
    (id : String) (h : widget_proxy.insertCount events id ≤ 1) :
    (widget_proxy.runProxy events).resolved.count id ≤ 1 ∧
    (∀ s : widget_proxy.ProxyState, s.pending.contains id = false →
      widget_proxy.handleWidgetResponse s id =
        { s with unexpectedErrors := s.unexpectedErrors + 1 }) := by
  constructor
  · have h2 := runProxyFrom_resolved_count_le events widget_proxy.ProxyState.initial id
    simp only [widget_proxy.ProxyState.initial, List.count_nil] at h2
    have h3 : (widget_proxy.runProxy events).resolved.count id ≤
        widget_proxy.insertCount events id := by
      simpa [widget_proxy.runProxy] using h2
    omega
  · intro s hs
    have hmem : id ∉ s.pending := by simpa using hs
    simp [widget_proxy.handleWidgetResponse, hmem]

/-- C1 (witness): the trace that sends one request, expires its timeout
and then receives the late reply: the slot is never resolved, and the
late reply only produced the one out-of-band unexpected response error. -/
theorem pending_entry_resolved_at_most_once_witness :
    widget_proxy.insertCount [.insert "a", .timeout "a", .reply "a"] "a" ≤ 1 ∧
    (widget_proxy.runProxy [.insert "a", .timeout "a", .reply "a"]).resolved.count "a" ≤ 1 ∧
    (widget_proxy.runProxy [.insert "a", .timeout "a", .reply "a"]).unexpectedErrors = 1 :=
  ⟨by decide,
   (pending_entry_resolved_at_most_once [.insert "a", .timeout "a", .reply "a"] "a"
     (by decide)).1,
   by decide⟩
